import Mathlib

/-!
Verification of the theme-sender repository (src/main.rs, src/override.rs).

The development shallowly embeds the decision logic of the scheduler:
the theme enumeration and its lookup tables, the daily schedule builder,
phase resolution, the override drain loop, the auto-clear rule, the
publish step and the retry loop of the resilient publisher. Timestamps
are seconds since the Unix epoch, as produced by chrono's
DateTime::timestamp. Solar event times come from the external sunrise
crate and are treated as an input record of eight timestamps.
-/

namespace ThemeSender

/-- The enum ThemeType of src/main.rs (lines 548-560). -/
inductive ThemeType where
  | Night
  | AstronomicalDawn
  | NauticalDawn
  | CivilDawn
  | Sunrise
  | Day
  | CivilDusk
  | NauticalDusk
  | AstronomicalDusk
  | Custom (theme : String)
deriving DecidableEq, Repr

/-- ThemeType::to_theme_string (src/main.rs lines 563-576). -/
def ThemeType.to_theme_string : ThemeType → String
  | .Night => "dark"
  | .AstronomicalDawn => "dark-dimmed"
  | .NauticalDawn => "dark-soft"
  | .CivilDawn => "light-soft"
  | .Sunrise => "light"
  | .Day => "light"
  | .CivilDusk => "light-soft"
  | .NauticalDusk => "dark-soft"
  | .AstronomicalDusk => "dark-dimmed"
  | .Custom theme => theme

/-- True exactly on the Custom variant. -/
def ThemeType.isCustom : ThemeType → Bool
  | .Custom _ => true
  | _ => false

/-- The eight solar event timestamps returned by the sunrise crate for one
day (an external collaborator: SolarDay::event_time, used at src/main.rs
lines 62-92 and 124-153), in seconds since the epoch. -/
structure SolarEventTimes where
  astronomicalDawn : Int
  nauticalDawn : Int
  civilDawn : Int
  sunrise : Int
  sunset : Int
  civilDusk : Int
  nauticalDusk : Int
  astronomicalDusk : Int
deriving DecidableEq, Repr

/-- The Night sentinel timestamp of the scheduler-loop schedule
(src/main.rs lines 154-159): DateTime::from_timestamp(now.timestamp() + 86400, 0). -/
def nightSentinelTime (now : Int) : Int := now + 86400

/-- Modelled from the spec: midnight UTC at the start of the calendar day
after the instant now, for nonnegative now given in seconds since the epoch
(the spec's "date + 1 day, 00:00:00 UTC"). -/
def nextMidnightUtc (now : Int) : Int := (now / 86400) * 86400 + 86400

/-- The eight (ThemeType, event time) pairs in the order they are listed in
the source before sorting (src/main.rs lines 62-92 and 124-153). -/
def unsortedEvents (t : SolarEventTimes) : List (ThemeType × Int) :=
  [(.AstronomicalDawn, t.astronomicalDawn),
   (.NauticalDawn, t.nauticalDawn),
   (.CivilDawn, t.civilDawn),
   (.Sunrise, t.sunrise),
   (.Day, t.sunset),
   (.CivilDusk, t.civilDusk),
   (.NauticalDusk, t.nauticalDusk),
   (.AstronomicalDusk, t.astronomicalDusk)]

/-- Stable insertion keyed by the timestamp component: an element is placed
after all existing elements with a key not larger than its own, matching the
stability of Rust's sort_by_key. -/
def insertByTime (x : ThemeType × Int) : List (ThemeType × Int) → List (ThemeType × Int)
  | [] => [x]
  | y :: ys => if x.2 < y.2 then x :: y :: ys else y :: insertByTime x ys

/-- Stable sort by timestamp, the embedding of events.sort_by_key
(src/main.rs lines 94 and 163). -/
def sortByTime : List (ThemeType × Int) → List (ThemeType × Int)
  | [] => []
  | x :: xs => insertByTime x (sortByTime xs)

/-- The schedule built on every scheduler cycle (src/main.rs lines 124-163):
eight solar events plus the Night sentinel at now + 86400, sorted by time. -/
def buildSchedule (t : SolarEventTimes) (now : Int) : List (ThemeType × Int) :=
  sortByTime (unsortedEvents t ++ [(.Night, nightSentinelTime now)])

/-- The schedule built once at startup (src/main.rs lines 62-94): only the
eight solar events, with no Night sentinel, sorted by time. -/
def startupSchedule (t : SolarEventTimes) : List (ThemeType × Int) :=
  sortByTime (unsortedEvents t)

/-- Phase resolution: the expression events.iter().rev().find(time <= now)
.map(theme).unwrap_or(Night), inlined in the source at src/main.rs
lines 97-102, 207-212 and 232-237. -/
def resolve_phase (now : Int) (events : List (ThemeType × Int)) : ThemeType :=
  (((events.reverse).find? (fun e => e.2 ≤ now)).map Prod.fst).getD .Night

/-- The enum OverrideMessage of src/main.rs (lines 294-298). -/
inductive OverrideMessage where
  | SetTheme (theme : String)
  | Revert
deriving DecidableEq, Repr

/-- The mutable decision state owned by the scheduler loop
(src/main.rs lines 56, 112-113). -/
structure SchedState where
  custom_override : Option String
  last_solar_theme : Option ThemeType
  last_published_theme : Option ThemeType
deriving DecidableEq, Repr

/-- Handling of one received override message inside the drain loop
(src/main.rs lines 178-218). Returns the updated state, the list of themes
published immediately by this message (empty or a singleton), and whether
the message set the theme_changed flag. -/
def handleMsg (now : Int) (events : List (ThemeType × Int)) (st : SchedState) :
    OverrideMessage → SchedState × List ThemeType × Bool
  | .SetTheme theme =>
    if st.custom_override ≠ some theme then
      ({ st with custom_override := some theme,
                 last_published_theme := some (.Custom theme) },
       [.Custom theme], true)
    else
      (st, [], false)
  | .Revert =>
    if st.custom_override.isSome then
      let solar_theme := resolve_phase now events
      ({ st with custom_override := none,
                 last_published_theme := some solar_theme },
       [solar_theme], true)
    else
      (st, [], false)

/-- The drain loop processing all currently queued messages in FIFO order
(src/main.rs lines 175-229), accumulating the immediate publishes and the
theme_changed flag. -/
def drainMsgs (now : Int) (events : List (ThemeType × Int)) (st : SchedState) :
    List OverrideMessage → SchedState × List ThemeType × Bool
  | [] => (st, [], false)
  | m :: ms =>
    let r := handleMsg now events st m
    let rest := drainMsgs now events r.1 ms
    (rest.1, r.2.1 ++ rest.2.1, r.2.2 || rest.2.2)

/-- The two error results of try_recv on the override channel
(src/main.rs lines 220-227). -/
inductive TryRecvError where
  | Empty
  | Disconnected
deriving DecidableEq, Repr

/-- What a loop does after observing a condition: keep looping or abort. -/
inductive LoopAction where
  | continueLoop
  | exitLoop
deriving DecidableEq, Repr

/-- How the drain loop reacts to a try_recv error (src/main.rs lines
220-227): the Empty arm breaks out of the drain and the cycle continues;
the Disconnected arm logs an error and also only breaks — it does not
abort the scheduler loop. -/
def drainErrAction : TryRecvError → LoopAction
  | .Empty => .continueLoop
  | .Disconnected => .continueLoop

/-- Forwarding one message from the listener to the scheduler
(src/main.rs lines 410-413): when blocking_send fails because the channel
is closed, the listener returns this error upward. -/
def forwardResult (channelClosed : Bool) : Except String Unit :=
  if channelClosed then .error "Override channel closed" else .ok ()

/-- The wrapper around the spawned listener task (src/main.rs lines 49-53):
an error returned by the listener is logged inside the task; it is not
propagated to main, so the process keeps running either way. -/
def listenerTaskOutcome (_r : Except String Unit) : LoopAction := .continueLoop

/-- Result of one scheduler-loop iteration: the next state, the themes
published during the iteration in order, and whether the loop sleeps
before the next iteration; fatal would mean the iteration aborts the
loop with an error. -/
inductive CycleOutcome where
  | next (st : SchedState) (published : List ThemeType) (sleep : Bool)
  | fatal
deriving DecidableEq, Repr

/-- One iteration of the scheduler loop's decision logic (src/main.rs
lines 116-291) for a given resolved schedule: drain the queued messages,
react to the final try_recv error per drainErrAction, apply the auto-clear
rule (lines 241-250), update last_solar_theme (lines 253-259), pick the
current theme (lines 261-267), publish it whether or not it changed
(lines 270-277), and skip the sleep when a message changed the theme
(lines 282-290). -/
def schedulerCycle (st : SchedState) (now : Int) (events : List (ThemeType × Int))
    (msgs : List OverrideMessage) (recvErr : TryRecvError) : CycleOutcome :=
  let d := drainMsgs now events st msgs
  match drainErrAction recvErr with
  | .exitLoop => .fatal
  | .continueLoop =>
    let st1 := d.1
    let theme_changed := d.2.2
    let solar_theme := resolve_phase now events
    let st2 :=
      match st1.custom_override, st1.last_solar_theme with
      | some _, some last =>
        if last ≠ solar_theme then { st1 with custom_override := none } else st1
      | _, _ => st1
    let st3 :=
      if st2.last_solar_theme ≠ some solar_theme then
        { st2 with last_solar_theme := some solar_theme }
      else st2
    let current_theme :=
      match st3.custom_override with
      | some custom => ThemeType.Custom custom
      | none => solar_theme
    let st4 :=
      if st3.last_published_theme ≠ some current_theme then
        { st3 with last_published_theme := some current_theme }
      else st3
    .next st4 (d.2.1 ++ [current_theme]) (!theme_changed)

/-- MAX_RETRIES of send_theme_update (src/main.rs line 473). -/
def MAX_RETRIES : Nat := 5

/-- MAX_RETRY_DELAY of send_theme_update (src/main.rs line 472). -/
def MAX_RETRY_DELAY : Nat := 30

/-- The retry loop of send_theme_update (src/main.rs lines 470-498),
parameterised by the outcome ok of each numbered attempt. The fuel equals
the number of remaining loop iterations of for attempt in 1..=MAX_RETRIES.
Returns (success flag, last attempt number tried, delays slept between
attempts in order). -/
def sendLoop (ok : Nat → Bool) : Nat → Nat → Nat → Bool × Nat × List Nat
  | 0, attempt, _ => (false, attempt - 1, [])
  | fuel + 1, attempt, retry_delay =>
    if ok attempt then
      (true, attempt, [])
    else if attempt < MAX_RETRIES then
      let r := sendLoop ok fuel (attempt + 1) (min (retry_delay * 2) MAX_RETRY_DELAY)
      (r.1, r.2.1, retry_delay :: r.2.2)
    else
      (false, attempt, [])

/-- send_theme_update's delivery behaviour (src/main.rs lines 470-502):
the retry loop started at attempt 1 with retry_delay 1. -/
def send_theme_update (ok : Nat → Bool) : Bool × Nat × List Nat :=
  sendLoop ok MAX_RETRIES 1 1

/-- Classification of an inbound MQTT message by the listener
(src/main.rs lines 401-405): an exact match of the topic against the
configured revert topic yields Revert; any other topic yields SetTheme
carrying the payload verbatim. The configured override topic plays no
part in the classification. -/
def classifyMessage (revert_topic : String) (topic : String) (payload : String) :
    OverrideMessage :=
  if topic = revert_topic then .Revert else .SetTheme payload

/-- Inserting one element grows the list by one. -/
theorem length_insertByTime (x : ThemeType × Int) (l : List (ThemeType × Int)) :
    (insertByTime x l).length = l.length + 1 := by
  induction l with
  | nil => rfl
  | cons y ys ih =>
    simp only [insertByTime]
    by_cases h : x.2 < y.2
    · simp [h]
    · simp [h, ih]

/-- Sorting preserves the length of the schedule. -/
theorem length_sortByTime (l : List (ThemeType × Int)) :
    (sortByTime l).length = l.length := by
  induction l with
  | nil => rfl
  | cons x xs ih => simp [sortByTime, length_insertByTime, ih]

/-- Membership in an insertion. -/
theorem mem_insertByTime (a x : ThemeType × Int) (l : List (ThemeType × Int)) :
    a ∈ insertByTime x l ↔ a = x ∨ a ∈ l := by
  induction l with
  | nil => simp [insertByTime]
  | cons y ys ih =>
    simp only [insertByTime]
    by_cases h : x.2 < y.2
    · simp [h]
    · simp [h, ih]
      tauto

/-- Membership is preserved by the sort. -/
theorem mem_sortByTime (a : ThemeType × Int) (l : List (ThemeType × Int)) :
    a ∈ sortByTime l ↔ a ∈ l := by
  induction l with
  | nil => simp [sortByTime]
  | cons x xs ih =>
    simp [sortByTime, mem_insertByTime, ih]

/-- The head of an insertion is the inserted element or the old head. -/
theorem head?_insertByTime (x : ThemeType × Int) (l : List (ThemeType × Int)) :
    (insertByTime x l).head? = some x ∨ (insertByTime x l).head? = l.head? := by
  cases l with
  | nil => left; rfl
  | cons y ys =>
    simp only [insertByTime]
    by_cases h : x.2 < y.2
    · left; simp [h]
    · right; simp [h]

/-- Insertion preserves sortedness by timestamp. -/
theorem chain'_insertByTime (x : ThemeType × Int) (l : List (ThemeType × Int))
    (h : List.Chain' (fun a b : ThemeType × Int => a.2 ≤ b.2) l) :
    List.Chain' (fun a b : ThemeType × Int => a.2 ≤ b.2) (insertByTime x l) := by
  induction l with
  | nil => simp [insertByTime]
  | cons y ys ih =>
    rw [List.chain'_cons'] at h
    obtain ⟨hy, hys⟩ := h
    simp only [insertByTime]
    by_cases hxy : x.2 < y.2
    · simp only [hxy, if_pos]
      rw [List.chain'_cons']
      constructor
      · intro z hz
        simp at hz
        subst hz
        exact le_of_lt hxy
      · rw [List.chain'_cons']
        exact ⟨hy, hys⟩
    · simp only [hxy, if_neg, not_false_iff]
      rw [List.chain'_cons']
      constructor
      · intro z hz
        rcases head?_insertByTime x ys with he | he
        · rw [he] at hz
          simp at hz
          subst hz
          exact le_of_not_lt hxy
        · rw [he] at hz
          exact hy z hz
      · exact ih hys

/-- The sort produces a schedule sorted non-decreasingly by timestamp. -/
theorem chain'_sortByTime (l : List (ThemeType × Int)) :
    List.Chain' (fun a b : ThemeType × Int => a.2 ≤ b.2) (sortByTime l) := by
  induction l with
  | nil => simp [sortByTime]
  | cons x xs ih => exact chain'_insertByTime x (sortByTime xs) ih

/-- Searching the reversed list is taking the last match of the original. -/
theorem find?_reverse_eq_getLast?_filter (p : (ThemeType × Int) → Bool)
    (l : List (ThemeType × Int)) :
    l.reverse.find? p = (l.filter p).getLast? := by
  rw [← List.filter_head? p l.reverse, List.filter_reverse, List.head?_reverse]

/-- resolve_phase yields Night or the phase of some schedule entry. -/
theorem resolve_phase_mem (now : Int) (events : List (ThemeType × Int)) :
    resolve_phase now events = ThemeType.Night ∨
      ∃ e ∈ events, resolve_phase now events = e.1 := by
  unfold resolve_phase
  cases h : (events.reverse).find? (fun e => e.2 ≤ now) with
  | none => left; rfl
  | some e =>
    right
    refine ⟨e, ?_, ?_⟩
    · rw [← List.mem_reverse]
      exact List.mem_of_find?_eq_some h
    · rfl

/-- C1: the Night sentinel appended by the scheduler-loop schedule builder is
timestamped now + 86400 seconds. At now = 43200 (1970-01-01T12:00:00Z) this is
129600 (1970-01-02T12:00:00Z), not the next-day midnight 86400
(1970-01-02T00:00:00Z) that the claim, and the source's own comment
"Next day midnight", demand; the sentinel therefore depends on the
time-of-day at which the schedule is built. -/
theorem C1_night_sentinel_bug :
    nightSentinelTime 43200 = 129600 ∧
    nextMidnightUtc 43200 = 86400 ∧
    nightSentinelTime 43200 ≠ nextMidnightUtc 43200 ∧
    (ThemeType.Night, (129600 : Int)) ∈ buildSchedule ⟨1, 2, 3, 4, 5, 6, 7, 8⟩ 43200 := by
  refine ⟨rfl, by decide, by decide, ?_⟩
  rw [buildSchedule, mem_sortByTime]
  simp [unsortedEvents, nightSentinelTime]

/-- C3 (amended): the scheduler-cycle schedule has exactly 9 entries, is
sorted non-decreasingly by timestamp and contains the Night sentinel; the
startup schedule has exactly 8 entries (no sentinel) and is also sorted
non-decreasingly by timestamp. -/
theorem C3_schedule_shape (t : SolarEventTimes) (now : Int) :
    (buildSchedule t now).length = 9 ∧
    List.Chain' (fun a b : ThemeType × Int => a.2 ≤ b.2) (buildSchedule t now) ∧
    (ThemeType.Night, nightSentinelTime now) ∈ buildSchedule t now ∧
    (startupSchedule t).length = 8 ∧
    List.Chain' (fun a b : ThemeType × Int => a.2 ≤ b.2) (startupSchedule t) := by
  refine ⟨?_, chain'_sortByTime _, ?_, ?_, chain'_sortByTime _⟩
  · rw [buildSchedule, length_sortByTime]
    simp [unsortedEvents]
  · rw [buildSchedule, mem_sortByTime]
    simp [unsortedEvents]
  · rw [startupSchedule, length_sortByTime]
    simp [unsortedEvents]

/-- C3 counterexample: the schedule used for the startup resolution has 8
entries, not 9, and contains no Night entry at all. -/
theorem C3_startup_counterexample :
    (startupSchedule ⟨1, 2, 3, 4, 5, 6, 7, 8⟩).length = 8 ∧
    ¬ (startupSchedule ⟨1, 2, 3, 4, 5, 6, 7, 8⟩).length = 9 ∧
    ThemeType.Night ∉ (startupSchedule ⟨1, 2, 3, 4, 5, 6, 7, 8⟩).map Prod.fst := by
  decide

/-- C7: resolve_phase returns the phase of the last schedule entry whose
timestamp is at most now, and Night when no entry qualifies. -/
theorem C7_resolve_phase_last_le (now : Int) (events : List (ThemeType × Int)) :
    resolve_phase now events =
      ((((events.filter (fun e => e.2 ≤ now)).getLast?).map Prod.fst).getD .Night) ∧
    ((∀ e ∈ events, ¬ (e.2 ≤ now)) → resolve_phase now events = .Night) := by
  constructor
  · unfold resolve_phase
    rw [find?_reverse_eq_getLast?_filter]
  · intro h
    unfold resolve_phase
    have hn : (events.reverse).find? (fun e => e.2 ≤ now) = none := by
      rw [List.find?_eq_none]
      intro x hx
      simp only [decide_eq_true_eq]
      exact h x (List.mem_reverse.mp hx)
    rw [hn]
    rfl

/-- Witness for C7 at now = 0 with a single entry at time 5. -/
theorem C7_resolve_phase_witness :
    resolve_phase 0 [(ThemeType.Sunrise, 5)] =
      (((([(ThemeType.Sunrise, (5 : Int))].filter
        (fun e => e.2 ≤ 0)).getLast?).map Prod.fst).getD .Night) ∧
    resolve_phase 0 [(ThemeType.Sunrise, 5)] = .Night := by
  have h := C7_resolve_phase_last_le 0 [(ThemeType.Sunrise, 5)]
  exact ⟨h.1, h.2 (by decide)⟩

/-- C9: the phase-to-theme lookup is symmetric about solar noon — each
dawn/dusk pair at the same distance maps to the identical theme string, and
Sunrise and Day both map to the light identifier; the lookup is a total
match on every variant. -/
theorem C9_theme_lookup_symmetry :
    ThemeType.AstronomicalDawn.to_theme_string
        = ThemeType.AstronomicalDusk.to_theme_string ∧
    ThemeType.NauticalDawn.to_theme_string = ThemeType.NauticalDusk.to_theme_string ∧
    ThemeType.CivilDawn.to_theme_string = ThemeType.CivilDusk.to_theme_string ∧
    ThemeType.Sunrise.to_theme_string = "light" ∧
    ThemeType.Day.to_theme_string = "light" ∧
    ThemeType.AstronomicalDawn.to_theme_string = "dark-dimmed" ∧
    ThemeType.NauticalDawn.to_theme_string = "dark-soft" ∧
    ThemeType.CivilDawn.to_theme_string = "light-soft" ∧
    ThemeType.Night.to_theme_string = "dark" :=
  ⟨rfl, rfl, rfl, rfl, rfl, rfl, rfl, rfl, rfl⟩

/-- C10: listener classification depends only on an exact match of the topic
against the configured revert topic — the revert topic yields Revert and any
other topic yields SetTheme with the payload used verbatim. -/
theorem C10_classify_by_revert_topic (rt topic payload : String) :
    (topic = rt → classifyMessage rt topic payload = .Revert) ∧
    (topic ≠ rt → classifyMessage rt topic payload = .SetTheme payload) := by
  constructor
  · intro h
    simp [classifyMessage, h]
  · intro h
    simp [classifyMessage, h]

/-- Witness for C10: a message on the revert topic becomes Revert, and a
message on a topic that is neither the revert nor the override topic becomes
SetTheme with its (empty) payload verbatim. -/
theorem C10_classify_witness :
    classifyMessage "neiam/sync/theme/revert" "neiam/sync/theme/revert" "x"
        = .Revert ∧
    classifyMessage "neiam/sync/theme/revert" "some/other/topic" "" = .SetTheme "" :=
  ⟨(C10_classify_by_revert_topic "neiam/sync/theme/revert"
      "neiam/sync/theme/revert" "x").1 rfl,
   (C10_classify_by_revert_topic "neiam/sync/theme/revert"
      "some/other/topic" "").2 (by decide)⟩

/-- C4: the publisher makes at most 5 attempts, succeeds exactly when one of
attempts 1..5 succeeds, sleeps the backoff delays 1, 2, 4, 8 between the
attempts actually made, returns success when the first 4 attempts fail and
the 5th succeeds, and returns the terminal failure after 5 failed attempts
with no 6th attempt. -/
theorem C4_publisher_retry (ok : Nat → Bool) :
    (send_theme_update ok).2.1 ≤ 5 ∧
    ((send_theme_update ok).1 = true ↔ ∃ i, 1 ≤ i ∧ i ≤ 5 ∧ ok i = true) ∧
    (send_theme_update ok).2.2
        = List.take ((send_theme_update ok).2.1 - 1) [1, 2, 4, 8] ∧
    send_theme_update (fun i => decide (i = 5)) = (true, 5, [1, 2, 4, 8]) ∧
    send_theme_update (fun _ => false) = (false, 5, [1, 2, 4, 8]) := by
  have key : (send_theme_update ok).2.1 ≤ 5 ∧
      (send_theme_update ok).1 = (ok 1 || ok 2 || ok 3 || ok 4 || ok 5) ∧
      (send_theme_update ok).2.2
        = List.take ((send_theme_update ok).2.1 - 1) [1, 2, 4, 8] := by
    rcases h1 : ok 1 <;> rcases h2 : ok 2 <;> rcases h3 : ok 3 <;>
      rcases h4 : ok 4 <;> rcases h5 : ok 5 <;>
      simp [send_theme_update, sendLoop, MAX_RETRIES, MAX_RETRY_DELAY,
        h1, h2, h3, h4, h5]
  refine ⟨key.1, ?_, key.2.2, by decide, by decide⟩
  rw [key.2.1]
  simp only [Bool.or_eq_true]
  constructor
  · intro h
    rcases h with ((((h | h) | h) | h) | h)
    · exact ⟨1, by omega, by omega, h⟩
    · exact ⟨2, by omega, by omega, h⟩
    · exact ⟨3, by omega, by omega, h⟩
    · exact ⟨4, by omega, by omega, h⟩
    · exact ⟨5, by omega, by omega, h⟩
  · rintro ⟨i, hi1, hi5, hok⟩
    interval_cases i <;> tauto

/-- Witness for C4 at a concrete attempt-outcome function. -/
theorem C4_publisher_retry_witness :
    (send_theme_update (fun i => decide (i = 5))).2.1 ≤ 5 ∧
    ((send_theme_update (fun i => decide (i = 5))).1 = true ↔
      ∃ i, 1 ≤ i ∧ i ≤ 5 ∧ decide (i = 5) = true) ∧
    (send_theme_update (fun i => decide (i = 5))).2.2
        = List.take ((send_theme_update (fun i => decide (i = 5))).2.1 - 1)
            [1, 2, 4, 8] :=
  ⟨(C4_publisher_retry (fun i => decide (i = 5))).1,
   (C4_publisher_retry (fun i => decide (i = 5))).2.1,
   (C4_publisher_retry (fun i => decide (i = 5))).2.2.1⟩

/-- C5: while an override is set, a change of the resolved solar phase since
the previous check clears the override with no Revert signal, and the theme
published on that cycle is the newly resolved solar theme, not the custom
one. -/
theorem C5_auto_clear (st : SchedState) (now : Int)
    (events : List (ThemeType × Int)) (s : String) (p : ThemeType)
    (hov : st.custom_override = some s)
    (hlast : st.last_solar_theme = some p)
    (hne : p ≠ resolve_phase now events)
    (hnc : ∀ e ∈ events, e.1.isCustom = false) :
    ∃ st4 : SchedState,
      schedulerCycle st now events [] .Empty =
        .next st4 [resolve_phase now events] true ∧
      st4.custom_override = none ∧
      st4.last_solar_theme = some (resolve_phase now events) ∧
      resolve_phase now events ≠ ThemeType.Custom s := by
  have hsolar_ne : resolve_phase now events ≠ ThemeType.Custom s := by
    rcases resolve_phase_mem now events with h | ⟨e, he, heq⟩
    · rw [h]
      intro hc
      cases hc
    · intro hc
      have hic := hnc e he
      rw [← heq, hc] at hic
      simp [ThemeType.isCustom] at hic
  obtain ⟨co, ls, lp⟩ := st
  simp only at hov hlast
  subst hov hlast
  by_cases hp : lp = some (resolve_phase now events)
  · refine ⟨⟨none, some (resolve_phase now events), lp⟩, ?_, rfl, rfl, hsolar_ne⟩
    simp [schedulerCycle, drainMsgs, drainErrAction, hne, hp, Ne.symm hne]
  · refine ⟨⟨none, some (resolve_phase now events),
      some (resolve_phase now events)⟩, ?_, rfl, rfl, hsolar_ne⟩
    simp [schedulerCycle, drainMsgs, drainErrAction, hne, hp, Ne.symm hne]

/-- Witness for C5: an override "x" with a recorded Night phase is cleared
when the phase resolves to Sunrise, and Sunrise is what gets published. -/
theorem C5_auto_clear_witness :
    ∃ st4 : SchedState,
      schedulerCycle ⟨some "x", some .Night, some (.Custom "x")⟩ 10
          [(ThemeType.Sunrise, 5)] [] .Empty =
        .next st4 [resolve_phase 10 [(ThemeType.Sunrise, 5)]] true ∧
      st4.custom_override = none ∧
      st4.last_solar_theme = some (resolve_phase 10 [(ThemeType.Sunrise, 5)]) ∧
      resolve_phase 10 [(ThemeType.Sunrise, 5)] ≠ ThemeType.Custom "x" :=
  C5_auto_clear ⟨some "x", some .Night, some (.Custom "x")⟩ 10
    [(ThemeType.Sunrise, 5)] "x" .Night rfl rfl (by decide) (by decide)

/-- C6: a SetTheme equal to the current override is a no-op with no
republish; a SetTheme differing from the current override publishes the
custom theme immediately; hence of two successive identical SetTheme
signals starting from a state not already overridden with that string,
only the first publishes. -/
theorem C6_settheme_dedup (st : SchedState) (now : Int)
    (events : List (ThemeType × Int)) (s s2 : String)
    (h : st.custom_override ≠ some s) :
    (drainMsgs now events st [.SetTheme s, .SetTheme s]).2.1
        = [ThemeType.Custom s] ∧
    (drainMsgs now events st [.SetTheme s, .SetTheme s]).1.custom_override
        = some s ∧
    (∀ st2 : SchedState, st2.custom_override = some s →
      handleMsg now events st2 (.SetTheme s) = (st2, [], false)) ∧
    (∀ st2 : SchedState, st2.custom_override ≠ some s2 →
      handleMsg now events st2 (.SetTheme s2) =
        ({ st2 with custom_override := some s2,
                    last_published_theme := some (.Custom s2) },
         [ThemeType.Custom s2], true)) := by
  refine ⟨?_, ?_, ?_, ?_⟩
  · simp [drainMsgs, handleMsg, h]
  · simp [drainMsgs, handleMsg, h]
  · intro st2 h2
    simp [handleMsg, h2]
  · intro st2 h2
    simp [handleMsg, h2]

/-- Witness for C6: from the automatic state, two successive identical
SetTheme signals publish the custom theme exactly once. -/
theorem C6_settheme_witness :
    (drainMsgs 0 [] ⟨none, none, none⟩
        [.SetTheme "high-contrast", .SetTheme "high-contrast"]).2.1
      = [ThemeType.Custom "high-contrast"] ∧
    (drainMsgs 0 [] ⟨none, none, none⟩
        [.SetTheme "high-contrast", .SetTheme "high-contrast"]).1.custom_override
      = some "high-contrast" ∧
    handleMsg 0 [] ⟨some "high-contrast", none, none⟩
        (.SetTheme "high-contrast")
      = (⟨some "high-contrast", none, none⟩, [], false) := by
  have h := C6_settheme_dedup ⟨none, none, none⟩ 0 [] "high-contrast" "y"
    (by simp)
  exact ⟨h.1, h.2.1, h.2.2.1 ⟨some "high-contrast", none, none⟩ rfl⟩

/-- C8: a Revert while overridden clears the override and immediately
publishes (and records) the solar theme resolved for now; a Revert while
automatic changes nothing and publishes nothing. -/
theorem C8_revert_transitions (st : SchedState) (now : Int)
    (events : List (ThemeType × Int)) :
    (∀ s, st.custom_override = some s →
      handleMsg now events st .Revert =
        ({ st with custom_override := none,
                   last_published_theme := some (resolve_phase now events) },
         [resolve_phase now events], true)) ∧
    (st.custom_override = none →
      handleMsg now events st .Revert = (st, [], false)) := by
  constructor
  · intro s hs
    simp [handleMsg, hs]
  · intro hn
    simp [handleMsg, hn]

/-- Witness for C8: a Revert from Overridden "dark-custom" publishes the
resolved solar theme, and a Revert from Automatic is a no-op. -/
theorem C8_revert_witness :
    handleMsg 10 [(ThemeType.Sunrise, 5)]
        ⟨some "dark-custom", none, none⟩ .Revert =
      (⟨none, none, some (resolve_phase 10 [(ThemeType.Sunrise, 5)])⟩,
       [resolve_phase 10 [(ThemeType.Sunrise, 5)]], true) ∧
    handleMsg 10 [(ThemeType.Sunrise, 5)] ⟨none, none, none⟩ .Revert =
      (⟨none, none, none⟩, [], false) :=
  ⟨(C8_revert_transitions ⟨some "dark-custom", none, none⟩ 10
      [(ThemeType.Sunrise, 5)]).1 "dark-custom" rfl,
   (C8_revert_transitions ⟨none, none, none⟩ 10
      [(ThemeType.Sunrise, 5)]).2 rfl⟩

/-- C2 counterexample: with the override channel reporting Disconnected, a
scheduler-loop iteration still completes normally — the outcome is not
fatal, because the Disconnected arm only logs and breaks out of the drain. -/
theorem C2_scheduler_counterexample :
    schedulerCycle ⟨none, none, none⟩ 0 [] [] .Disconnected
        ≠ CycleOutcome.fatal ∧
    drainErrAction .Disconnected = .continueLoop := by
  decide

/-- C2 (amended): a closed forwarding channel makes the listener's forward
return an error upward, but the spawn wrapper only logs it, and the
scheduler loop treats Disconnected exactly like Empty — every iteration
completes with a normal outcome, so neither loop exits and the process
keeps running without the override path. -/
theorem C2_channel_closed_behavior :
    forwardResult true = .error "Override channel closed" ∧
    (∀ r, listenerTaskOutcome r = .continueLoop) ∧
    drainErrAction .Disconnected = drainErrAction .Empty ∧
    (∀ (st : SchedState) (now : Int) (events : List (ThemeType × Int))
        (msgs : List OverrideMessage),
      schedulerCycle st now events msgs .Disconnected =
          schedulerCycle st now events msgs .Empty ∧
      ∃ st4 pub sleep,
        schedulerCycle st now events msgs .Disconnected =
          .next st4 pub sleep) := by
  refine ⟨rfl, fun r => rfl, rfl, fun st now events msgs => ⟨rfl, ?_⟩⟩
  exact ⟨_, _, _, rfl⟩

end ThemeSender
